import Mathlib

/-!
Shallow embedding of the glucose-exporter repository (Go): the LibreLink API
client (`api/librelink/client.go` together with its models and date parsing)
and the Prometheus collection bridge (`collector/metrics.go`).

Go functions returning `(T, error)` are embedded as `Option`/`Except` or the
`GoResult` type below; Go machine integers never overflow on the modelled
paths and are embedded as `Nat`/`Int`.
-/

/-- UTC civil time instant: the image of a Go `time.Time` in UTC as produced
by `time.Parse` with the repository's `DateFormat` layout (no fractional
seconds, no zone offset). -/
structure GoTime where
  year : Nat
  month : Nat
  day : Nat
  hour : Nat
  minute : Nat
  second : Nat
deriving DecidableEq, Repr

/-- Go constant `DateFormat = "1/2/2006 3:04:05 PM"` from the models file. -/
def DateFormat : String := "1/2/2006 3:04:05 PM"

/-- Numeric value of an ASCII digit character (Go `atoi` on one digit). -/
def digitVal (c : Char) : Nat := c.toNat - 48

/-- Go `getnum(s, fixed=false)` from `time/format.go`, used by the layout
chunks `1` (month), `2` (day) and `3` (hour of the 12-hour clock): one or two
leading digits, greedily taking two when the second character is a digit. -/
def getnum : List Char → Option (Nat × List Char)
  | c1 :: c2 :: rest =>
    if c1.isDigit then
      if c2.isDigit then some (digitVal c1 * 10 + digitVal c2, rest)
      else some (digitVal c1, c2 :: rest)
    else none
  | [c1] => if c1.isDigit then some (digitVal c1, []) else none
  | [] => none

/-- Go `getnum(s, fixed=true)` from `time/format.go`, used by the layout
chunks `04` (minute) and `05` (second): exactly two leading digits. -/
def getnum2fixed : List Char → Option (Nat × List Char)
  | c1 :: c2 :: rest =>
    if c1.isDigit ∧ c2.isDigit then some (digitVal c1 * 10 + digitVal c2, rest)
    else none
  | _ => none

/-- Go handling of the layout chunk `2006` (`stdLongYear`): four leading
characters that must all be decimal digits (`atoi` fails otherwise). -/
def getYear : List Char → Option (Nat × List Char)
  | a :: b :: c :: d :: rest =>
    if a.isDigit ∧ b.isDigit ∧ c.isDigit ∧ d.isDigit then
      some (digitVal a * 1000 + digitVal b * 100 + digitVal c * 10 + digitVal d, rest)
    else none
  | _ => none

/-- Consuming a literal layout character (separators `/`, `:` and space). -/
def expectChar (c : Char) : List Char → Option (List Char)
  | x :: rest => if x = c then some rest else none
  | [] => none

/-- Go handling of the layout chunk `PM` (`stdPM`): the next two characters
must be exactly `PM` or `AM`; the result is `true` for `PM`. -/
def getPM : List Char → Option (Bool × List Char)
  | 'P' :: 'M' :: rest => some (true, rest)
  | 'A' :: 'M' :: rest => some (false, rest)
  | _ => none

/-- Go `isLeap` from `time`: divisible by 4 and (not by 100, or by 400). -/
def isLeap (year : Nat) : Bool := year % 4 = 0 ∧ (year % 100 ≠ 0 ∨ year % 400 = 0)

/-- Go `daysIn(m, year)` from `time`: number of days of month `m`. -/
def daysIn (month year : Nat) : Nat :=
  if month = 2 then (if isLeap year then 29 else 28)
  else if month = 4 ∨ month = 6 ∨ month = 9 ∨ month = 11 then 30
  else 31

/-- The `1/2/2006` part of the layout scan of `time.Parse`: month and day by
non-fixed `getnum` with the month range-checked right away
(`month <= 0 || 12 < month`), year by the four-digit `stdLongYear` rule,
with the literal `/` separators in between. -/
def parseMDY (cs : List Char) : Option (Nat × Nat × Nat × List Char) :=
  (getnum cs).bind (fun p1 =>
  if p1.1 = 0 ∨ 12 < p1.1 then none else
  (expectChar '/' p1.2).bind (fun r1 =>
  (getnum r1).bind (fun p2 =>
  (expectChar '/' p2.2).bind (fun r2 =>
  (getYear r2).bind (fun p3 =>
  some (p1.1, p2.1, p3.1, p3.2))))))

/-- The `3:04:05 PM` part of the layout scan of `time.Parse`: 12-hour hour by
non-fixed `getnum` checked against `12 < hour`, minute and second by fixed
two-digit `getnum` checked against `60 <=`, then the `PM`/`AM` token. -/
def parseHMSPM (cs : List Char) : Option (Nat × Nat × Nat × Bool × List Char) :=
  (getnum cs).bind (fun p4 =>
  if 12 < p4.1 then none else
  (expectChar ':' p4.2).bind (fun r4 =>
  (getnum2fixed r4).bind (fun p5 =>
  if 60 ≤ p5.1 then none else
  (expectChar ':' p5.2).bind (fun r5 =>
  (getnum2fixed r5).bind (fun p6 =>
  if 60 ≤ p6.1 then none else
  (expectChar ' ' p6.2).bind (fun r6 =>
  (getPM r6).bind (fun p7 =>
  some (p4.1, p5.1, p6.1, p7.1, p7.2))))))))

/-- Go `time.Parse("1/2/2006 3:04:05 PM", s)` specialised to the repository's
`DateFormat`, on the character list of `s`.  Mirrors `time/format.go`: after
the layout is exhausted any remaining text is an error, `PM` adds 12 to hours
below 12 and `AM` maps hour 12 to 0, and finally the day is validated against
`daysIn(month, year)`.  Every Go parse error becomes `none`. -/
def parseDateChars (cs : List Char) : Option GoTime :=
  (parseMDY cs).bind (fun md =>
  (expectChar ' ' md.2.2.2).bind (fun r3 =>
  (parseHMSPM r3).bind (fun hm =>
  if hm.2.2.2.2 ≠ [] then none else
  if md.2.1 = 0 ∨ daysIn md.1 md.2.2.1 < md.2.1 then none else
  some { year := md.2.2.1, month := md.1, day := md.2.1,
         hour := if hm.2.2.2.1 ∧ hm.1 < 12 then hm.1 + 12
                 else if ¬hm.2.2.2.1 ∧ hm.1 = 12 then 0 else hm.1,
         minute := hm.2.1, second := hm.2.2.1 })))

/-- Go `parseDate(s)` from the models file: `time.Parse(DateFormat, s)`. -/
def parseDate (s : String) : Option GoTime := parseDateChars s.toList

/-- ASCII digit character for a value below 10. -/
def digitChar (n : Nat) : Char := Char.ofNat (48 + n)

/-- Decimal rendering of `n < 100` without a leading zero (the `M`, `D` and
`h` fields of a well-formed `M/D/YYYY h:mm:ss AM|PM` string). -/
def render2 (n : Nat) : List Char :=
  if n < 10 then [digitChar n] else [digitChar (n / 10), digitChar (n % 10)]

/-- Zero-padded two-digit decimal rendering (the `mm` and `ss` fields). -/
def renderPad2 (n : Nat) : List Char := [digitChar (n / 10 % 10), digitChar (n % 10)]

/-- Zero-padded four-digit decimal rendering (the `YYYY` field). -/
def render4 (n : Nat) : List Char :=
  [digitChar (n / 1000 % 10), digitChar (n / 100 % 10), digitChar (n / 10 % 10),
   digitChar (n % 10)]

/-- The character list of the well-formed `M/D/YYYY h:mm:ss AM|PM` string with
the given field values; this is the spec's notion of a well-formed date
string, written as an explicit renderer. -/
def renderDateChars (month day year hour12 minute second : Nat) (pm : Bool) : List Char :=
  render2 month ++ '/' :: (render2 day ++ '/' :: (render4 year ++ (' ' ::
    (render2 hour12 ++ ':' :: (renderPad2 minute ++ ':' :: (renderPad2 second ++
    ' ' :: (if pm then ['P', 'M'] else ['A', 'M'])))))))

/-- The well-formed `M/D/YYYY h:mm:ss AM|PM` string with the given fields. -/
def renderDate (month day year hour12 minute second : Nat) (pm : Bool) : String :=
  String.mk (renderDateChars month day year hour12 minute second pm)

theorem digitChar_isDigit (n : Nat) (h : n < 10) : (digitChar n).isDigit = true := by
  interval_cases n <;> decide

theorem digitVal_digitChar (n : Nat) (h : n < 10) : digitVal (digitChar n) = n := by
  interval_cases n <;> decide

theorem getnum_render2 (n : Nat) (hn : n < 100) (c : Char) (hc : c.isDigit = false)
    (rest : List Char) : getnum (render2 n ++ c :: rest) = some (n, c :: rest) := by
  unfold render2
  by_cases h : n < 10
  · simp [if_pos h, getnum, digitChar_isDigit n h, hc, digitVal_digitChar n h]
  · have h1 : n / 10 < 10 := by omega
    have h2 : n % 10 < 10 := by omega
    simp [if_neg h, getnum, digitChar_isDigit _ h1, digitChar_isDigit _ h2,
      digitVal_digitChar _ h1, digitVal_digitChar _ h2]
    omega

theorem getnum2fixed_renderPad2 (n : Nat) (hn : n < 100) (rest : List Char) :
    getnum2fixed (renderPad2 n ++ rest) = some (n, rest) := by
  have h1 : n / 10 % 10 < 10 := by omega
  have h2 : n % 10 < 10 := by omega
  simp [renderPad2, getnum2fixed, digitChar_isDigit _ h1, digitChar_isDigit _ h2,
    digitVal_digitChar _ h1, digitVal_digitChar _ h2]
  omega

theorem getYear_render4 (y : Nat) (hy : y < 10000) (rest : List Char) :
    getYear (render4 y ++ rest) = some (y, rest) := by
  have h1 : y / 1000 % 10 < 10 := by omega
  have h2 : y / 100 % 10 < 10 := by omega
  have h3 : y / 10 % 10 < 10 := by omega
  have h4 : y % 10 < 10 := by omega
  simp [render4, getYear, digitChar_isDigit _ h1, digitChar_isDigit _ h2,
    digitChar_isDigit _ h3, digitChar_isDigit _ h4, digitVal_digitChar _ h1,
    digitVal_digitChar _ h2, digitVal_digitChar _ h3, digitVal_digitChar _ h4]
  omega

theorem expectChar_cons (c : Char) (rest : List Char) :
    expectChar c (c :: rest) = some rest := by
  simp [expectChar]

theorem daysIn_le_31 (month year : Nat) : daysIn month year ≤ 31 := by
  unfold daysIn
  split
  · split <;> omega
  · split <;> omega

theorem parseMDY_render (month day year : Nat) (rest : List Char)
    (hm1 : 1 ≤ month) (hm2 : month ≤ 12) (hd : day < 100) (hy : year < 10000) :
    parseMDY (render2 month ++ '/' :: (render2 day ++ '/' :: (render4 year ++ rest))) =
      some (month, day, year, rest) := by
  have hmcond : ¬(month = 0 ∨ 12 < month) := by omega
  unfold parseMDY
  rw [getnum_render2 month (by omega) '/' (by decide)]
  simp only [Option.some_bind]
  rw [if_neg hmcond, expectChar_cons]
  simp only [Option.some_bind]
  rw [getnum_render2 day hd '/' (by decide)]
  simp only [Option.some_bind]
  rw [expectChar_cons]
  simp only [Option.some_bind]
  rw [getYear_render4 year hy]
  simp only [Option.some_bind]

theorem parseHMSPM_render (hour12 minute second : Nat) (pm : Bool)
    (hh : hour12 ≤ 12) (hmin : minute < 60) (hsec : second < 60) :
    parseHMSPM (render2 hour12 ++ ':' :: (renderPad2 minute ++ ':' :: (renderPad2 second ++
      ' ' :: (if pm then ['P', 'M'] else ['A', 'M'])))) =
      some (hour12, minute, second, pm, []) := by
  have hhcond : ¬(12 < hour12) := by omega
  have hmincond : ¬(60 ≤ minute) := by omega
  have hseccond : ¬(60 ≤ second) := by omega
  unfold parseHMSPM
  rw [getnum_render2 hour12 (by omega) ':' (by decide)]
  simp only [Option.some_bind]
  rw [if_neg hhcond, expectChar_cons]
  simp only [Option.some_bind]
  rw [getnum2fixed_renderPad2 minute (by omega)]
  simp only [Option.some_bind]
  rw [if_neg hmincond, expectChar_cons]
  simp only [Option.some_bind]
  rw [getnum2fixed_renderPad2 second (by omega)]
  simp only [Option.some_bind]
  rw [if_neg hseccond, expectChar_cons]
  simp only [Option.some_bind]
  cases pm <;> simp [getPM]

/-- Round-trip on character lists: parsing a well-formed rendered date yields
exactly the denoted civil instant. -/
theorem parseDateChars_render (month day year hour12 minute second : Nat) (pm : Bool)
    (hm1 : 1 ≤ month) (hm2 : month ≤ 12)
    (hd1 : 1 ≤ day) (hd2 : day ≤ daysIn month year)
    (hy : year < 10000)
    (hh2 : hour12 ≤ 12)
    (hmin : minute < 60) (hsec : second < 60) :
    parseDateChars (renderDateChars month day year hour12 minute second pm) =
      some { year := year, month := month, day := day,
             hour := if pm ∧ hour12 < 12 then hour12 + 12
                     else if ¬pm ∧ hour12 = 12 then 0 else hour12,
             minute := minute, second := second } := by
  have hd31 : day ≤ 31 := le_trans hd2 (daysIn_le_31 month year)
  have hdcond : ¬(day = 0 ∨ daysIn month year < day) := by omega
  unfold renderDateChars parseDateChars
  rw [parseMDY_render month day year _ hm1 hm2 (by omega) hy]
  simp only [Option.some_bind]
  rw [expectChar_cons]
  simp only [Option.some_bind]
  rw [parseHMSPM_render hour12 minute second pm hh2 hmin hsec]
  simp only [Option.some_bind]
  simp [if_neg hdcond]

/-!
Data model of the LibreLink client (models file of `api/librelink`).
-/

/-- Go `AuthTicket`.  After `UnmarshalJSON`, `Expires` is `time.Unix(sec, 0)`
(kept here as the integer seconds) and `Duration` is the wire value in
milliseconds times `time.Millisecond` (kept here as the wire milliseconds). -/
structure AuthTicket where
  token : String
  expires : Int
  duration : Int
deriving DecidableEq, Repr

/-- Go `User` (the fields the repository declares). -/
structure User where
  id : String
  firstName : String
  lastName : String
  email : String
  country : String
deriving DecidableEq, Repr

/-- Go `AuthRequest`: the JSON body of the login request. -/
structure AuthRequest where
  email : String
  password : String
deriving DecidableEq, Repr

/-- Go `AuthResponse`: the decoded payload of a successful login. -/
structure AuthResponse where
  user : User
  authTicket : AuthTicket
deriving DecidableEq, Repr

/-- Go `LibreLinkError`: the optional error object of an envelope. -/
structure LibreLinkError where
  message : String
deriving DecidableEq, Repr

/-- Go `RedirecResponse`: the redirect marker shape decoded from a payload. -/
structure RedirecResponse where
  redirect : Bool
  region : String
deriving DecidableEq, Repr

/-- Go `GlucoseUnitsMgPerDl` (the `GlucoseUnits` constants). -/
def GlucoseUnitsMgPerDl : Int := 1

/-- Go `GlucoseUnitsMmolPerL`. -/
def GlucoseUnitsMmolPerL : Int := 0

/-- Go `GlucoseArrow` constants (`iota` from 0). -/
def GlucoseArrowNone : Int := 0

def GlucoseArrowDown : Int := 1

def GlucoseArrowDownRight : Int := 2

def GlucoseArrowRight : Int := 3

def GlucoseArrowUpRight : Int := 4

def GlucoseArrowUp : Int := 5

/-- Go `GlucoseMeasurement` after a successful `UnmarshalJSON`: the
`FactoryTimestamp` string has been parsed into a time value. -/
structure GlucoseMeasurement where
  timestamp : GoTime
  type : Int
  valueInMgPerDl : Int
  measurementColor : Int
  glucoseUnits : Int
  value : Float
  isHigh : Bool
  isLow : Bool
  trendArrow : Int
  trendMessage : Option String
deriving Repr

/-- The wire form of a `GlucoseMeasurement` before its `UnmarshalJSON` runs:
`FactoryTimestamp` is still the raw string. -/
structure RawGlucoseMeasurement where
  factoryTimestamp : String
  type : Int
  valueInMgPerDl : Int
  measurementColor : Int
  glucoseUnits : Int
  value : Float
  isHigh : Bool
  isLow : Bool
  trendArrow : Int
  trendMessage : Option String
deriving Repr

/-- Go `(g *GlucoseMeasurement) UnmarshalJSON`: decode the auxiliary struct,
then `parseDate` the timestamp string; a parse failure fails the whole
decode, it never falls back to a zero time. -/
def GlucoseMeasurement.unmarshalJSON (raw : RawGlucoseMeasurement) :
    Except String GlucoseMeasurement :=
  match parseDate raw.factoryTimestamp with
  | none => Except.error "parsing time: cannot parse as DateFormat"
  | some t =>
    Except.ok { timestamp := t, type := raw.type, valueInMgPerDl := raw.valueInMgPerDl,
                measurementColor := raw.measurementColor, glucoseUnits := raw.glucoseUnits,
                value := raw.value, isHigh := raw.isHigh, isLow := raw.isLow,
                trendArrow := raw.trendArrow, trendMessage := raw.trendMessage }

/-- Go `Connection`: one monitored person record. -/
structure Connection where
  id : String
  patientId : String
  firstName : String
  lastName : String
  email : String
  dateOfBirth : String
  emailVerified : Bool
  signUpDate : String
  glucoseMeasurement : Option GlucoseMeasurement
  glucoseItem : Option GlucoseMeasurement
deriving Repr

/-- Go `GraphData`: the payload of the per-connection graph endpoint. -/
structure GraphData where
  connection : Connection
  graphData : List GlucoseMeasurement
deriving Repr

/-- The JSON value carried in an envelope's `data` field
(`json.RawMessage` in Go), classified by the shapes this repository decodes
it into.  `redirect`, `authObj` and `graph` are JSON objects; `connections`
is a JSON array; `undecodable` is anything that decodes into none of the
expected shapes (malformed JSON, a scalar, and so on). -/
inductive Payload where
  | redirect (redirect : Bool) (region : String)
  | authObj (user : User) (authTicket : AuthTicket)
  | graph (g : GraphData)
  | connections (cs : List Connection)
  | undecodable
deriving Repr

def zeroAuthTicket : AuthTicket := { token := "", expires := 0, duration := 0 }

def zeroUser : User := { id := "", firstName := "", lastName := "", email := "", country := "" }

def zeroConnection : Connection :=
  { id := "", patientId := "", firstName := "", lastName := "", email := "",
    dateOfBirth := "", emailVerified := false, signUpDate := "",
    glucoseMeasurement := none, glucoseItem := none }

/-- Go `json.Unmarshal` of a payload into `RedirecResponse` (the
`getPayload(resp, &redirect)` call in `handleRedirect`): a redirect-shaped
object decodes to its fields; any other JSON object decodes successfully to
the zero value because unknown fields are ignored; a JSON array or
undecodable data fails. -/
def decodePayloadRedirect : Payload → Option RedirecResponse
  | Payload.redirect r region => some { redirect := r, region := region }
  | Payload.authObj _ _ => some { redirect := false, region := "" }
  | Payload.graph _ => some { redirect := false, region := "" }
  | Payload.connections _ => none
  | Payload.undecodable => none

/-- Go `json.Unmarshal` of a payload into `AuthResponse` (in `Authenticate`):
object shapes decode (unknown fields ignored, missing fields zero), arrays
and junk fail. -/
def decodePayloadAuth : Payload → Option AuthResponse
  | Payload.authObj u t => some { user := u, authTicket := t }
  | Payload.redirect _ _ => some { user := zeroUser, authTicket := zeroAuthTicket }
  | Payload.graph _ => some { user := zeroUser, authTicket := zeroAuthTicket }
  | Payload.connections _ => none
  | Payload.undecodable => none

/-- Go `json.Unmarshal` of a payload into `[]Connection` (in
`GetConnections`): only a JSON array decodes. -/
def decodePayloadConnections : Payload → Option (List Connection)
  | Payload.connections cs => some cs
  | _ => none

/-- Go `json.Unmarshal` of a payload into `GraphData` (in `getGraphData`):
object shapes decode (unknown fields ignored, missing fields zero), arrays
and junk fail. -/
def decodePayloadGraph : Payload → Option GraphData
  | Payload.graph g => some g
  | Payload.redirect _ _ => some { connection := zeroConnection, graphData := [] }
  | Payload.authObj _ _ => some { connection := zeroConnection, graphData := [] }
  | Payload.connections _ => none
  | Payload.undecodable => none

/-- Go `LibreLinkResp`: the response envelope.  `Error` is a pointer in Go
and is `none` when the remote sent no error object. -/
structure LibreLinkResp where
  status : Int
  data : Payload
  ticket : AuthTicket
  error : Option LibreLinkError
deriving Repr

/-!
The LibreLink client (`api/librelink/client.go`).
-/

/-- Go `getUrl(region)`: the bare host for an empty region, otherwise
`fmt.Sprintf("https://api-%s.libreview.io", region)`. -/
def getUrl (region : String) : String :=
  if region = "" then "https://api.libreview.io"
  else "https://api-" ++ region ++ ".libreview.io"

/-- Models `hex.EncodeToString(sha256.Sum256([]byte(userId)))` from the Go
standard library (external to this repository): the digest is kept as an
abstract fingerprint of its preimage.  It is deterministic and injective,
which is all any modelled code path observes; no claim inspects the digest
text itself. -/
structure Sha256Hex where
  preimage : String
deriving DecidableEq, Repr

/-- Go `librelinkCreds`: stored session credentials. -/
structure librelinkCreds where
  ticket : AuthTicket
  id : Sha256Hex
deriving DecidableEq, Repr

/-- Go `NewLibreLinkCreds(userId, ticket)`: hash the user id, keep the ticket. -/
def NewLibreLinkCreds (userId : String) (ticket : AuthTicket) : librelinkCreds :=
  { ticket := ticket, id := { preimage := userId } }

/-- The mutable state of a Go `LibreLinkClient`.  The `httpClient` and
`logger` fields are pure I/O collaborators and are not part of the state;
the HTTP transport is passed explicitly to each operation instead. -/
structure ClientState where
  baseUrl : String
  user : String
  password : String
  creds : Option librelinkCreds
deriving Repr

/-- Go `NewLibreLinkClient(user, password)` before functional options are
applied: base URL `https://api.libreview.io`, no credentials. -/
def NewLibreLinkClient (user password : String) : ClientState :=
  { baseUrl := "https://api.libreview.io", user := user, password := password, creds := none }

/-- Go functional option `WithExpiringCredentials(userId, token, expiry)`. -/
def WithExpiringCredentials (userId token : String) (expiry : Int) :
    ClientState → ClientState :=
  fun c => { c with creds := some (NewLibreLinkCreds userId
    { token := token, expires := expiry, duration := 0 }) }

/-- The error values the client operations return, one constructor per
`fmt.Errorf` site in `client.go`. -/
inductive GoError where
  | requestFailed (msg : String)
  | unexpectedStatusCode (code : Nat)
  | decodeBodyFailed
  | apiError (status : Int) (msg : String)
  | redirectFailed (msg : String)
  | decodePayloadFailed (what : String)
deriving DecidableEq, Repr

/-- Outcome of running a piece of Go code: a value, a returned error, a
runtime panic (nil-pointer dereference), or non-termination surfaced when the
recursion budget (`fuel`) runs out. -/
inductive GoResult (α : Type) where
  | ok (a : α)
  | err (e : GoError)
  | panicked
  | diverged
deriving Repr

/-- What one HTTP exchange produces: a transport error (`httpClient.Do`
fails), or a response with an HTTP status code and a body that either
decodes into an envelope or does not. -/
inductive HttpResult where
  | netErr (msg : String)
  | resp (statusCode : Nat) (body : Option LibreLinkResp)

/-- The remote service as seen through `prepareRequest` + `httpClient.Do`:
a function of everything the request carries that can vary — the base URL,
the credential headers (`account-id`, `Authorization`), the method, the
endpoint path and the JSON body (only the login request has one).  The fixed
product/version headers carry no information and are omitted. -/
def Transport : Type :=
  String → Option librelinkCreds → String → String → Option AuthRequest → HttpResult

/-- Go `(c *LibreLinkClient) handleRedirect(resp)`: decode the payload as a
redirect marker (failure means "not a redirect"), and if a redirect is
signalled, fail when the region is empty, otherwise switch the base URL to
`getUrl(region)`.  Result: (redirected?, error message?), new state.
`url.Parse` never fails on a `getUrl` result, so that branch is absent. -/
def handleRedirect (st : ClientState) (resp : LibreLinkResp) :
    (Bool × Option String) × ClientState :=
  match decodePayloadRedirect resp.data with
  | none => ((false, none), st)
  | some redirect =>
    if !redirect.redirect then ((false, none), st)
    else if redirect.region = "" then
      ((false, some "redirect requested but no region provided"), st)
    else ((true, none), { st with baseUrl := getUrl redirect.region })

/-- Go `(c *LibreLinkClient) doRequest(ctx, method, endpoint, body)`.
Mirrors `client.go`: issue the request (`prepareRequest` cannot fail for the
endpoints the client uses); a transport error, a non-200 HTTP status or an
undecodable body each return an error; a non-zero envelope status
short-circuits into `API error <status>: <message>` — reading
`libreResp.Error.Message`, which dereferences a nil pointer when the remote
sent no error object; otherwise inspect for a redirect and, if one was
followed, retry the same request against the new base URL with no depth
limit (the recursion is bounded here only by `fuel`; exhausting it yields
`diverged`).  The third component counts HTTP requests actually issued. -/
def doRequest (fuel : Nat) (t : Transport) (st : ClientState)
    (method endpoint : String) (body : Option AuthRequest) :
    GoResult LibreLinkResp × ClientState × Nat :=
  match fuel with
  | 0 => (GoResult.diverged, st, 0)
  | n + 1 =>
    match t st.baseUrl st.creds method endpoint body with
    | HttpResult.netErr msg => (GoResult.err (GoError.requestFailed msg), st, 1)
    | HttpResult.resp code bodyv =>
      if code ≠ 200 then (GoResult.err (GoError.unexpectedStatusCode code), st, 1)
      else
        match bodyv with
        | none => (GoResult.err GoError.decodeBodyFailed, st, 1)
        | some libreResp =>
          if libreResp.status ≠ 0 then
            match libreResp.error with
            | some e => (GoResult.err (GoError.apiError libreResp.status e.message), st, 1)
            | none => (GoResult.panicked, st, 1)
          else
            match handleRedirect st libreResp with
            | ((_, some msg), _) => (GoResult.err (GoError.redirectFailed msg), st, 1)
            | ((false, none), st1) => (GoResult.ok libreResp, st1, 1)
            | ((true, none), st1) =>
              let res := doRequest n t st1 method endpoint body
              (res.1, res.2.1, res.2.2 + 1)

/-- Go `(c *LibreLinkClient) Authenticate(ctx)`: POST the email/password to
`llu/auth/login` (`json.Marshal` of the body cannot fail), decode the
payload as an `AuthResponse`, and only on full success replace the stored
credentials with `NewLibreLinkCreds(authResp.User.ID, authResp.AuthTicket)`. -/
def Authenticate (fuel : Nat) (t : Transport) (st : ClientState) :
    GoResult Unit × ClientState :=
  match doRequest fuel t st "POST" "llu/auth/login"
      (some { email := st.user, password := st.password }) with
  | (GoResult.ok resp, st1, _) =>
    match decodePayloadAuth resp.data with
    | none => (GoResult.err (GoError.decodePayloadFailed "failed to decode response body"), st1)
    | some authResp =>
      (GoResult.ok (),
       { st1 with creds := some (NewLibreLinkCreds authResp.user.id authResp.authTicket) })
  | (GoResult.err e, st1, _) => (GoResult.err e, st1)
  | (GoResult.panicked, st1, _) => (GoResult.panicked, st1)
  | (GoResult.diverged, st1, _) => (GoResult.diverged, st1)

/-- Go `(c *LibreLinkClient) GetConnections(ctx)`: GET `llu/connections`,
decode the payload as `[]Connection`. -/
def GetConnections (fuel : Nat) (t : Transport) (st : ClientState) :
    GoResult (List Connection) × ClientState :=
  match doRequest fuel t st "GET" "llu/connections" none with
  | (GoResult.ok resp, st1, _) =>
    match decodePayloadConnections resp.data with
    | none => (GoResult.err (GoError.decodePayloadFailed "failed to decode connections"), st1)
    | some connections => (GoResult.ok connections, st1)
  | (GoResult.err e, st1, _) => (GoResult.err e, st1)
  | (GoResult.panicked, st1, _) => (GoResult.panicked, st1)
  | (GoResult.diverged, st1, _) => (GoResult.diverged, st1)

/-- Go `(c *LibreLinkClient) getGraphData(ctx, connectionId)` (exposed to the
collector as `GetGraphData`): GET `llu/connections/<id>/graph`, decode the
payload as `GraphData`. -/
def getGraphData (fuel : Nat) (t : Transport) (st : ClientState) (connectionId : String) :
    GoResult GraphData × ClientState :=
  match doRequest fuel t st "GET" ("llu/connections/" ++ connectionId ++ "/graph") none with
  | (GoResult.ok resp, st1, _) =>
    match decodePayloadGraph resp.data with
    | none => (GoResult.err (GoError.decodePayloadFailed "failed to decode graph data"), st1)
    | some graphData => (GoResult.ok graphData, st1)
  | (GoResult.err e, st1, _) => (GoResult.err e, st1)
  | (GoResult.panicked, st1, _) => (GoResult.panicked, st1)
  | (GoResult.diverged, st1, _) => (GoResult.diverged, st1)

/-- Go `(c *LibreLinkClient) GetLatestReading(ctx, connectionId)`: fetch the
graph data and return `*graphData.Connection.GlucoseMeasurement` — a plain
pointer dereference, which panics when the connection carries no current
reading (`GlucoseMeasurement` is nil). -/
def GetLatestReading (fuel : Nat) (t : Transport) (st : ClientState) (connectionId : String) :
    GoResult GlucoseMeasurement × ClientState :=
  match getGraphData fuel t st connectionId with
  | (GoResult.ok graphData, st1) =>
    match graphData.connection.glucoseMeasurement with
    | some m => (GoResult.ok m, st1)
    | none => (GoResult.panicked, st1)
  | (GoResult.err e, st1) => (GoResult.err e, st1)
  | (GoResult.panicked, st1) => (GoResult.panicked, st1)
  | (GoResult.diverged, st1) => (GoResult.diverged, st1)

/-- Go `(c *LibreLinkClient) IsAuthenticated()`: `c.creds != nil`. -/
def IsAuthenticated (st : ClientState) : Bool := st.creds.isSome

/-!
The metric collection bridge (`collector/metrics.go`).
-/

/-- The three Prometheus metric descriptors a `GlucoseCollector` creates in
`NewGlucoseCollector`: current level (`glucose_librelink_level_mmoll`),
current trend (`glucose_librelink_trend`) and historic level
(`glucose_librelink_historic_level`). -/
inductive MetricDesc where
  | glucoseLevelDesc
  | trendDesc
  | historicDataDesc
deriving DecidableEq, Repr

/-- One metric sent to the Prometheus channel:
`NewMetricWithTimestamp(ts, MustNewConstMetric(desc, GaugeValue, value,
patient_id, patient_name))`. -/
structure Observation where
  desc : MetricDesc
  timestamp : GoTime
  value : Float
  patient_id : String
  patient_name : String
deriving Repr

/-- The channel sends of the success path of `collectGlucose`, in order: the
current level, the current trend (`float64(reading.TrendArrow)`), then one
observation per historic entry; every one carries the patient id and the
`"<FirstName> <LastName>"` display name of the loop's connection
(`patient_name` in the source) and the timestamp of its own reading. -/
def connectionObservations (connection : Connection) (reading : GlucoseMeasurement)
    (graphData : List GlucoseMeasurement) : List Observation :=
  { desc := MetricDesc.glucoseLevelDesc, timestamp := reading.timestamp,
    value := reading.value, patient_id := connection.patientId,
    patient_name := connection.firstName ++ " " ++ connection.lastName } ::
  { desc := MetricDesc.trendDesc, timestamp := reading.timestamp,
    value := Float.ofInt reading.trendArrow, patient_id := connection.patientId,
    patient_name := connection.firstName ++ " " ++ connection.lastName } ::
  graphData.map (fun historic =>
    { desc := MetricDesc.historicDataDesc, timestamp := historic.timestamp,
      value := historic.value, patient_id := connection.patientId,
      patient_name := connection.firstName ++ " " ++ connection.lastName })

/-- Go `(gc GlucoseCollector) collectGlucose(ctx, ch, connection)`: fetch the
graph data for `connection.PatientId`; on error, or when the connection's
current reading is nil, return without emitting anything; otherwise emit
`connectionObservations`.  The emitted metrics are returned as a list in
channel order. -/
def collectGlucose (fuel : Nat) (t : Transport) (st : ClientState)
    (connection : Connection) : GoResult (List Observation) × ClientState :=
  match getGraphData fuel t st connection.patientId with
  | (GoResult.err _, st1) => (GoResult.ok [], st1)
  | (GoResult.panicked, st1) => (GoResult.panicked, st1)
  | (GoResult.diverged, st1) => (GoResult.diverged, st1)
  | (GoResult.ok data, st1) =>
    match data.connection.glucoseMeasurement with
    | none => (GoResult.ok [], st1)
    | some reading =>
      (GoResult.ok (connectionObservations connection reading data.graphData), st1)

/-- The `for _, c := range conn` loop of `Collect`: run `collectGlucose` on
each connection in the returned order, threading the client state and
concatenating the emitted observations; a panic or divergence inside one
iteration aborts the loop. -/
def collectLoop (fuel : Nat) (t : Transport) (st : ClientState) :
    List Connection → GoResult (List Observation) × ClientState
  | [] => (GoResult.ok [], st)
  | c :: cs =>
    match collectGlucose fuel t st c with
    | (GoResult.ok obs, st1) =>
      match collectLoop fuel t st1 cs with
      | (GoResult.ok rest, st2) => (GoResult.ok (obs ++ rest), st2)
      | (r, st2) => (r, st2)
    | (r, st1) => (r, st1)

/-- The part of Go `Collect` after a session is ensured: fetch the connection
list; on error return silently with no observations; otherwise run the loop. -/
def collectConnections (fuel : Nat) (t : Transport) (st : ClientState) :
    GoResult (List Observation) × ClientState :=
  match GetConnections fuel t st with
  | (GoResult.ok conn, st1) => collectLoop fuel t st1 conn
  | (GoResult.err _, st1) => (GoResult.ok [], st1)
  | (GoResult.panicked, st1) => (GoResult.panicked, st1)
  | (GoResult.diverged, st1) => (GoResult.diverged, st1)

/-- Go `(gc GlucoseCollector) Collect(ch)`: if the client is not
authenticated, authenticate first and abort the scrape silently (no
observations, no error) when that fails; then fetch the connections and
collect each one.  The scrape's emitted observations are the returned list;
`Collect` itself never returns an error to its caller. -/
def Collect (fuel : Nat) (t : Transport) (st : ClientState) :
    GoResult (List Observation) × ClientState :=
  if IsAuthenticated st then collectConnections fuel t st
  else
    match Authenticate fuel t st with
    | (GoResult.ok _, st1) => collectConnections fuel t st1
    | (GoResult.err _, st1) => (GoResult.ok [], st1)
    | (GoResult.panicked, st1) => (GoResult.panicked, st1)
    | (GoResult.diverged, st1) => (GoResult.diverged, st1)

/-!
Supporting lemmas.
-/

theorem handleRedirect_creds (st : ClientState) (resp : LibreLinkResp) :
    ((handleRedirect st resp).2).creds = st.creds := by
  unfold handleRedirect
  cases decodePayloadRedirect resp.data with
  | none => rfl
  | some r =>
    by_cases h1 : r.redirect = true
    · by_cases h2 : r.region = "" <;> simp [h1, h2]
    · simp [h1]

theorem doRequest_creds (fuel : Nat) (t : Transport) (st : ClientState)
    (method endpoint : String) (body : Option AuthRequest) :
    ((doRequest fuel t st method endpoint body).2.1).creds = st.creds := by
  induction fuel generalizing st with
  | zero => rfl
  | succ n ih =>
    unfold doRequest
    cases t st.baseUrl st.creds method endpoint body with
    | netErr msg => rfl
    | resp code bodyv =>
      dsimp only
      by_cases hcode : code ≠ 200
      · rw [if_pos hcode]
      · rw [if_neg hcode]
        cases bodyv with
        | none => rfl
        | some libreResp =>
          dsimp only
          by_cases hs : libreResp.status ≠ 0
          · rw [if_pos hs]
            cases libreResp.error <;> rfl
          · rw [if_neg hs]
            rcases hh : handleRedirect st libreResp with ⟨⟨b, msg⟩, st1⟩
            have h1 : st1.creds = st.creds := by
              have h2 := handleRedirect_creds st libreResp
              rw [hh] at h2
              exact h2
            cases b with
            | false =>
              cases msg with
              | none => exact h1
              | some m => rfl
            | true =>
              cases msg with
              | none => exact (ih st1).trans h1
              | some m => rfl

/-!
Claim theorems.
-/

/-- C4 counterexample: for region `"de"` the code resolves the base host to
`https://api-de.libreview.io` (dash separator), not to the claimed pattern
`https://api.de.libreview.io` (dot separator). -/
theorem getUrl_dot_pattern_counterexample :
    getUrl "de" = "https://api-de.libreview.io" ∧
    getUrl "de" ≠ "https://api.de.libreview.io" := by
  constructor
  · decide
  · decide

/-- C4 (amended): for every nonempty region code the client resolves the
remote base host to `https://api-<region>.libreview.io`, and when no region
is known it uses the bare `https://api.libreview.io`; the resolution is a
deterministic function (`getUrl`) of the region code. -/
theorem getUrl_resolution (region : String) :
    (region = "" → getUrl region = "https://api.libreview.io") ∧
    (region ≠ "" → getUrl region = "https://api-" ++ region ++ ".libreview.io") := by
  constructor
  · intro h
    simp [getUrl, h]
  · intro h
    simp [getUrl, h]

theorem getUrl_resolution_witness :
    ("de" : String) ≠ "" ∧ getUrl "de" = "https://api-" ++ "de" ++ ".libreview.io" :=
  ⟨by decide, (getUrl_resolution "de").2 (by decide)⟩

/-- C8: every well-formed `M/D/YYYY h:mm:ss AM|PM` string parses to the exact
UTC instant it denotes (with the 12-hour clock resolved by the AM/PM marker),
and whenever `parseDate` fails, decoding the glucose measurement that carries
the string fails with an error instead of producing a zero/epoch time; the
test suite's malformed example `"19/7/2025 6:01:03 PM"` indeed fails. -/
theorem parseDate_spec (month day year hour12 minute second : Nat) (pm : Bool)
    (hm1 : 1 ≤ month) (hm2 : month ≤ 12)
    (hd1 : 1 ≤ day) (hd2 : day ≤ daysIn month year)
    (hy : year < 10000) (hh1 : 1 ≤ hour12) (hh2 : hour12 ≤ 12)
    (hmin : minute < 60) (hsec : second < 60) :
    parseDate (renderDate month day year hour12 minute second pm) =
      some { year := year, month := month, day := day,
             hour := if pm ∧ hour12 < 12 then hour12 + 12
                     else if ¬pm ∧ hour12 = 12 then 0 else hour12,
             minute := minute, second := second } ∧
    (∀ raw : RawGlucoseMeasurement, parseDate raw.factoryTimestamp = none →
      ∃ emsg, GlucoseMeasurement.unmarshalJSON raw = Except.error emsg) ∧
    parseDate "19/7/2025 6:01:03 PM" = none := by
  refine ⟨?_, ?_, ?_⟩
  · exact parseDateChars_render month day year hour12 minute second pm
      hm1 hm2 hd1 hd2 hy hh2 hmin hsec
  · intro raw h
    unfold GlucoseMeasurement.unmarshalJSON
    rw [h]
    exact ⟨_, rfl⟩
  · decide

theorem parseDate_spec_witness :
    renderDate 9 7 2025 6 1 3 true = "9/7/2025 6:01:03 PM" ∧
    parseDate (renderDate 9 7 2025 6 1 3 true) =
      some { year := 2025, month := 9, day := 7, hour := 18, minute := 1, second := 3 } := by
  have h := (parseDate_spec 9 7 2025 6 1 3 true (by decide) (by decide) (by decide)
    (by decide) (by decide) (by decide) (by decide) (by decide) (by decide)).1
  exact ⟨by decide, by simpa using h⟩

/-- C3: whenever the transport yields an HTTP 200 response whose envelope has
a non-zero status and carries a remote error message, `doRequest`
short-circuits into `API error <status>: <message>`: the payload (here an
arbitrary one, even a redirect marker) is neither decoded nor returned, the
client state is unchanged (so no redirect switch happened), and exactly one
HTTP request was issued (so no retry); redirect inspection therefore runs
only on the zero-status path. -/
theorem doRequest_nonzero_status_short_circuits (fuel : Nat) (t : Transport)
    (st : ClientState) (method endpoint : String) (body : Option AuthRequest)
    (envl : LibreLinkResp) (msg : String)
    (ht : t st.baseUrl st.creds method endpoint body = HttpResult.resp 200 (some envl))
    (hs : envl.status ≠ 0) (he : envl.error = some { message := msg }) :
    doRequest (fuel + 1) t st method endpoint body =
      (GoResult.err (GoError.apiError envl.status msg), st, 1) := by
  unfold doRequest
  rw [ht]
  dsimp only
  rw [if_neg (by omega : ¬(200 : Nat) ≠ 200), if_pos hs, he]

/-- Transport used by the C3 witness: a remote that rejects every request
with envelope status 2, message `notAuthenticated`, and (adversarially) a
redirect-shaped payload that must be ignored. -/
def apiErrorTransport : Transport := fun _ _ _ _ _ =>
  HttpResult.resp 200 (some
    { status := 2, data := Payload.redirect true "de", ticket := zeroAuthTicket,
      error := some { message := "notAuthenticated" } })

theorem doRequest_nonzero_status_short_circuits_witness :
    doRequest 1 apiErrorTransport (NewLibreLinkClient "u" "p") "GET" "llu/connections" none =
      (GoResult.err (GoError.apiError 2 "notAuthenticated"), NewLibreLinkClient "u" "p", 1) :=
  doRequest_nonzero_status_short_circuits 0 apiErrorTransport (NewLibreLinkClient "u" "p")
    "GET" "llu/connections" none
    { status := 2, data := Payload.redirect true "de", ticket := zeroAuthTicket,
      error := some { message := "notAuthenticated" } }
    "notAuthenticated" rfl (by decide) rfl

/-- C9: whenever the transport yields a zero-status envelope whose payload
signals a redirect with an empty region, `doRequest` fails with the protocol
error `redirect requested but no region provided`: it does not retry (exactly
one HTTP request is issued), does not switch the base URL (state unchanged),
and does not return the envelope. -/
theorem doRequest_redirect_empty_region_fails (fuel : Nat) (t : Transport)
    (st : ClientState) (method endpoint : String) (body : Option AuthRequest)
    (envl : LibreLinkResp)
    (ht : t st.baseUrl st.creds method endpoint body = HttpResult.resp 200 (some envl))
    (hs : envl.status = 0) (hd : envl.data = Payload.redirect true "") :
    doRequest (fuel + 1) t st method endpoint body =
      (GoResult.err (GoError.redirectFailed "redirect requested but no region provided"),
       st, 1) := by
  unfold doRequest
  rw [ht]
  dsimp only
  rw [if_neg (by omega : ¬(200 : Nat) ≠ 200), if_neg (by simp [hs])]
  have hr : handleRedirect st envl =
      ((false, some "redirect requested but no region provided"), st) := by
    unfold handleRedirect
    rw [hd]
    rfl
  rw [hr]

/-- Transport used by the C9 witness: a remote that answers every request
with a redirect marker that names no region. -/
def emptyRegionTransport : Transport := fun _ _ _ _ _ =>
  HttpResult.resp 200 (some
    { status := 0, data := Payload.redirect true "", ticket := zeroAuthTicket,
      error := none })

theorem doRequest_redirect_empty_region_fails_witness :
    doRequest 1 emptyRegionTransport (NewLibreLinkClient "u" "p") "GET" "llu/connections" none =
      (GoResult.err (GoError.redirectFailed "redirect requested but no region provided"),
       NewLibreLinkClient "u" "p", 1) :=
  doRequest_redirect_empty_region_fails 0 emptyRegionTransport (NewLibreLinkClient "u" "p")
    "GET" "llu/connections" none
    { status := 0, data := Payload.redirect true "", ticket := zeroAuthTicket, error := none }
    rfl rfl rfl

/-- Transport used for C2: a remote that answers every request — on every
base URL — with a zero-status envelope redirecting to region `de`. -/
def alwaysRedirectTransport : Transport := fun _ _ _ _ _ =>
  HttpResult.resp 200 (some
    { status := 0, data := Payload.redirect true "de", ticket := zeroAuthTicket,
      error := none })

/-- C2 (the code at the failing input): the automatic redirect retry is not
capped.  Against a remote that redirects on every request, `doRequest`
exhausts any recursion budget: for every `fuel` it issues exactly `fuel`
HTTP requests and never produces a result — the recursion is unbounded, so a
second consecutive redirect does re-enter `doRequest` rather than stopping. -/
theorem doRequest_redirect_retry_unbounded (fuel : Nat) (st : ClientState)
    (method endpoint : String) (body : Option AuthRequest) :
    (doRequest fuel alwaysRedirectTransport st method endpoint body).1 =
      GoResult.diverged ∧
    (doRequest fuel alwaysRedirectTransport st method endpoint body).2.2 = fuel := by
  induction fuel generalizing st with
  | zero => exact ⟨rfl, rfl⟩
  | succ n ih =>
    have key : doRequest (n + 1) alwaysRedirectTransport st method endpoint body =
        ((doRequest n alwaysRedirectTransport { st with baseUrl := getUrl "de" }
            method endpoint body).1,
         (doRequest n alwaysRedirectTransport { st with baseUrl := getUrl "de" }
            method endpoint body).2.1,
         (doRequest n alwaysRedirectTransport { st with baseUrl := getUrl "de" }
            method endpoint body).2.2 + 1) := rfl
    rw [key]
    exact ⟨(ih _).1, by rw [(ih _).2]⟩

/-- A historic reading used by the C1/C5 fixtures. -/
def histPoint1 : GlucoseMeasurement :=
  { timestamp := { year := 2025, month := 9, day := 7, hour := 17, minute := 45, second := 0 },
    type := 0, valueInMgPerDl := 95, measurementColor := 1,
    glucoseUnits := GlucoseUnitsMmolPerL, value := 5.3, isHigh := false, isLow := false,
    trendArrow := GlucoseArrowRight, trendMessage := none }

/-- A second historic reading used by the C1/C5 fixtures. -/
def histPoint2 : GlucoseMeasurement :=
  { timestamp := { year := 2025, month := 9, day := 7, hour := 17, minute := 50, second := 0 },
    type := 0, valueInMgPerDl := 97, measurementColor := 1,
    glucoseUnits := GlucoseUnitsMmolPerL, value := 5.4, isHigh := false, isLow := false,
    trendArrow := GlucoseArrowRight, trendMessage := none }

/-- Graph payload whose connection has no current reading but two historic
points — the C1 scenario and the C5 failing input. -/
def noCurrentGraphData : GraphData :=
  { connection :=
      { id := "c1", patientId := "p1", firstName := "Jane", lastName := "Doe", email := "",
        dateOfBirth := "", emailVerified := false, signUpDate := "",
        glucoseMeasurement := none, glucoseItem := none },
    graphData := [histPoint1, histPoint2] }

/-- Transport serving `noCurrentGraphData` for every request. -/
def noCurrentTransport : Transport := fun _ _ _ _ _ =>
  HttpResult.resp 200 (some
    { status := 0, data := Payload.graph noCurrentGraphData, ticket := zeroAuthTicket,
      error := none })

/-- C5 (the code at the failing input): when the graph payload's connection
carries no current reading, `GetLatestReading` dereferences the nil
`Connection.GlucoseMeasurement` pointer and panics instead of returning an
error value. -/
theorem getLatestReading_panics_without_current :
    (GetLatestReading 1 noCurrentTransport (NewLibreLinkClient "u" "p") "p1").1 =
      GoResult.panicked := rfl

/-- C1 counterexample: on a connection whose graph payload has no current
reading but two historic points, `collectGlucose` emits zero observations —
not one observation per historic entry (the claim demands exactly 2). -/
theorem collectGlucose_no_current_counterexample :
    (collectGlucose 1 noCurrentTransport (NewLibreLinkClient "u" "p")
        noCurrentGraphData.connection).1 = GoResult.ok [] ∧
    noCurrentGraphData.graphData.length = 2 := ⟨rfl, rfl⟩

/-- C1 (amended): when a connection's graph payload has no current reading,
the bridge skips the whole connection — it emits no observations at all for
it, historic entries included. -/
theorem collectGlucose_no_current_skips_connection (fuel : Nat) (t : Transport)
    (st st1 : ClientState) (connection : Connection) (g : GraphData)
    (hg : getGraphData fuel t st connection.patientId = (GoResult.ok g, st1))
    (hm : g.connection.glucoseMeasurement = none) :
    collectGlucose fuel t st connection = (GoResult.ok [], st1) := by
  unfold collectGlucose
  rw [hg]
  dsimp only
  rw [hm]

theorem collectGlucose_no_current_skips_connection_witness :
    collectGlucose 1 noCurrentTransport (NewLibreLinkClient "u" "p")
      noCurrentGraphData.connection = (GoResult.ok [], NewLibreLinkClient "u" "p") :=
  collectGlucose_no_current_skips_connection 1 noCurrentTransport
    (NewLibreLinkClient "u" "p") (NewLibreLinkClient "u" "p")
    noCurrentGraphData.connection noCurrentGraphData rfl rfl

/-- Transport used by the C10 witness: the network is down. -/
def authFailTransport : Transport := fun _ _ _ _ _ => HttpResult.netErr "connection refused"

/-- C10: whenever `Authenticate` returns an error — transport failure,
non-zero envelope status, or a payload that does not decode as an
`AuthResponse` — the stored credentials are exactly the ones held before the
call (so a never-authenticated client still holds none), and the result of
`IsAuthenticated` is unaffected; the credentials field is replaced only on
the full-success path. -/
theorem authenticate_error_preserves_creds (fuel : Nat) (t : Transport) (st : ClientState)
    (h : ∃ e, (Authenticate fuel t st).1 = GoResult.err e) :
    ((Authenticate fuel t st).2).creds = st.creds ∧
    IsAuthenticated (Authenticate fuel t st).2 = IsAuthenticated st := by
  obtain ⟨e, he⟩ := h
  have hcreds : ((Authenticate fuel t st).2).creds = st.creds := by
    have hd := doRequest_creds fuel t st "POST" "llu/auth/login"
      (some { email := st.user, password := st.password })
    unfold Authenticate at he ⊢
    rcases hr : doRequest fuel t st "POST" "llu/auth/login"
        (some { email := st.user, password := st.password }) with ⟨r, st1, k⟩
    rw [hr] at hd he
    cases r with
    | ok resp =>
      dsimp only at he ⊢
      cases hda : decodePayloadAuth resp.data with
      | none => exact hd
      | some authResp =>
        rw [hda] at he
        simp at he
    | err e1 => exact hd
    | panicked => simp at he
    | diverged => simp at he
  refine ⟨hcreds, ?_⟩
  unfold IsAuthenticated
  rw [hcreds]

theorem authenticate_error_preserves_creds_witness :
    (∃ e, (Authenticate 1 authFailTransport (NewLibreLinkClient "u" "p")).1 =
      GoResult.err e) ∧
    ((Authenticate 1 authFailTransport (NewLibreLinkClient "u" "p")).2).creds = none ∧
    IsAuthenticated (Authenticate 1 authFailTransport (NewLibreLinkClient "u" "p")).2 =
      false := by
  have h := authenticate_error_preserves_creds 1 authFailTransport
    (NewLibreLinkClient "u" "p") ⟨GoError.requestFailed "connection refused", rfl⟩
  exact ⟨⟨GoError.requestFailed "connection refused", rfl⟩, h.1, h.2⟩

theorem collectGlucose_graph_err (fuel : Nat) (t : Transport) (st st1 : ClientState)
    (connection : Connection) (e : GoError)
    (hg : getGraphData fuel t st connection.patientId = (GoResult.err e, st1)) :
    collectGlucose fuel t st connection = (GoResult.ok [], st1) := by
  unfold collectGlucose
  rw [hg]

theorem collectGlucose_emits (fuel : Nat) (t : Transport) (st st1 : ClientState)
    (connection : Connection) (g : GraphData) (reading : GlucoseMeasurement)
    (hg : getGraphData fuel t st connection.patientId = (GoResult.ok g, st1))
    (hr : g.connection.glucoseMeasurement = some reading) :
    collectGlucose fuel t st connection =
      (GoResult.ok (connectionObservations connection reading g.graphData), st1) := by
  unfold collectGlucose
  rw [hg]
  dsimp only
  rw [hr]

/-- C6: failure isolation of the scrape.  (a) If a needed authentication
fails, the scrape returns no observations and no error.  (b) If the
connection-list fetch fails, likewise.  (c) If the graph fetch fails for one
of two connections, only that connection's observations are dropped: the
other connection, in the returned order, is still processed and emitted, and
no error surfaces to the caller. -/
theorem collect_failure_isolation (fuel : Nat) (t : Transport) (st : ClientState) :
    (∀ e, IsAuthenticated st = false → (Authenticate fuel t st).1 = GoResult.err e →
      Collect fuel t st = (GoResult.ok [], (Authenticate fuel t st).2)) ∧
    (∀ e, IsAuthenticated st = true → (GetConnections fuel t st).1 = GoResult.err e →
      Collect fuel t st = (GoResult.ok [], (GetConnections fuel t st).2)) ∧
    (∀ (c1 c2 : Connection) (g2 : GraphData) (r2 : GlucoseMeasurement) (e : GoError),
      IsAuthenticated st = true →
      GetConnections fuel t st = (GoResult.ok [c1, c2], st) →
      getGraphData fuel t st c1.patientId = (GoResult.err e, st) →
      getGraphData fuel t st c2.patientId = (GoResult.ok g2, st) →
      g2.connection.glucoseMeasurement = some r2 →
      Collect fuel t st =
        (GoResult.ok (connectionObservations c2 r2 g2.graphData), st)) := by
  refine ⟨?_, ?_, ?_⟩
  · intro e hauth he
    unfold Collect
    rw [hauth, if_neg (by simp)]
    rcases ha : Authenticate fuel t st with ⟨r, st1⟩
    rw [ha] at he
    cases r with
    | ok u => simp at he
    | err e1 => rfl
    | panicked => simp at he
    | diverged => simp at he
  · intro e hauth he
    unfold Collect collectConnections
    rw [hauth, if_pos rfl]
    rcases hc : GetConnections fuel t st with ⟨r, st1⟩
    rw [hc] at he
    cases r with
    | ok cs => simp at he
    | err e1 => rfl
    | panicked => simp at he
    | diverged => simp at he
  · intro c1 c2 g2 r2 e hauth hconn hg1 hg2 hr2
    unfold Collect collectConnections
    rw [hauth, if_pos rfl, hconn]
    dsimp only
    simp only [collectLoop]
    rw [collectGlucose_graph_err fuel t st st c1 e hg1]
    dsimp only
    rw [collectGlucose_emits fuel t st st c2 g2 r2 hg2 hr2]
    dsimp only
    simp

/-- An already-authenticated client state used by the C6 witness. -/
def stAuthed : ClientState :=
  { NewLibreLinkClient "u" "p" with creds := some (NewLibreLinkCreds "uid1" zeroAuthTicket) }

/-- First connection of the C6 witness scenario; its graph fetch will fail. -/
def conn1 : Connection :=
  { id := "c1", patientId := "p1", firstName := "John", lastName := "Smith", email := "",
    dateOfBirth := "", emailVerified := false, signUpDate := "",
    glucoseMeasurement := none, glucoseItem := none }

/-- Second connection of the C6 witness scenario; it will survive. -/
def conn2 : Connection :=
  { id := "c2", patientId := "p2", firstName := "Jane", lastName := "Doe", email := "",
    dateOfBirth := "", emailVerified := false, signUpDate := "",
    glucoseMeasurement := none, glucoseItem := none }

/-- A current reading used by the C6/C7 witnesses. -/
def currentReading : GlucoseMeasurement :=
  { timestamp := { year := 2025, month := 9, day := 7, hour := 18, minute := 1, second := 3 },
    type := 0, valueInMgPerDl := 99, measurementColor := 1,
    glucoseUnits := GlucoseUnitsMmolPerL, value := 5.5, isHigh := false, isLow := false,
    trendArrow := GlucoseArrowRight, trendMessage := none }

/-- Graph payload with a current reading and two historic points, served for
the surviving connection of the C6 witness. -/
def graphOkData : GraphData :=
  { connection := { conn2 with glucoseMeasurement := some currentReading },
    graphData := [histPoint1, histPoint2] }

/-- Transport of the C6 witness scenario (c): the connection list holds
`conn1` and `conn2`; the graph fetch fails for `p1` and succeeds for `p2`. -/
def twoConnTransport : Transport := fun _ _ _ endpoint _ =>
  if endpoint = "llu/connections" then
    HttpResult.resp 200 (some
      { status := 0, data := Payload.connections [conn1, conn2], ticket := zeroAuthTicket,
        error := none })
  else if endpoint = "llu/connections/p1/graph" then HttpResult.netErr "boom"
  else
    HttpResult.resp 200 (some
      { status := 0, data := Payload.graph graphOkData, ticket := zeroAuthTicket,
        error := none })

theorem collect_failure_isolation_witness :
    Collect 1 authFailTransport (NewLibreLinkClient "u" "p") =
      (GoResult.ok [], (Authenticate 1 authFailTransport (NewLibreLinkClient "u" "p")).2) ∧
    Collect 1 authFailTransport stAuthed =
      (GoResult.ok [], (GetConnections 1 authFailTransport stAuthed).2) ∧
    Collect 1 twoConnTransport stAuthed =
      (GoResult.ok (connectionObservations conn2 currentReading graphOkData.graphData),
       stAuthed) := by
  refine ⟨?_, ?_, ?_⟩
  · exact (collect_failure_isolation 1 authFailTransport (NewLibreLinkClient "u" "p")).1
      (GoError.requestFailed "connection refused") rfl rfl
  · exact (collect_failure_isolation 1 authFailTransport stAuthed).2.1
      (GoError.requestFailed "connection refused") rfl rfl
  · exact (collect_failure_isolation 1 twoConnTransport stAuthed).2.2
      conn1 conn2 graphOkData currentReading (GoError.requestFailed "boom")
      rfl rfl rfl rfl rfl

/-- C7: scrape from an unauthenticated client where login succeeds, the
connection list holds exactly one connection, and its graph payload has a
current reading plus three historic points: the scrape emits exactly 5
observations — current level, trend code, and one per historic entry — each
labelled with the patient id and the full `"<FirstName> <LastName>"` display
name, and each timestamped with its own reading's timestamp rather than the
scrape time. -/
theorem collect_login_scenario (fuel : Nat) (t : Transport) (st st1 : ClientState)
    (c : Connection) (g : GraphData) (r h1 h2 h3 : GlucoseMeasurement)
    (hauth : st.creds = none)
    (ha : Authenticate fuel t st = (GoResult.ok (), st1))
    (hc : GetConnections fuel t st1 = (GoResult.ok [c], st1))
    (hg : getGraphData fuel t st1 c.patientId = (GoResult.ok g, st1))
    (hr : g.connection.glucoseMeasurement = some r)
    (hh : g.graphData = [h1, h2, h3]) :
    Collect fuel t st =
      (GoResult.ok
        [{ desc := MetricDesc.glucoseLevelDesc, timestamp := r.timestamp, value := r.value,
           patient_id := c.patientId, patient_name := c.firstName ++ " " ++ c.lastName },
         { desc := MetricDesc.trendDesc, timestamp := r.timestamp,
           value := Float.ofInt r.trendArrow, patient_id := c.patientId,
           patient_name := c.firstName ++ " " ++ c.lastName },
         { desc := MetricDesc.historicDataDesc, timestamp := h1.timestamp,
           value := h1.value, patient_id := c.patientId,
           patient_name := c.firstName ++ " " ++ c.lastName },
         { desc := MetricDesc.historicDataDesc, timestamp := h2.timestamp,
           value := h2.value, patient_id := c.patientId,
           patient_name := c.firstName ++ " " ++ c.lastName },
         { desc := MetricDesc.historicDataDesc, timestamp := h3.timestamp,
           value := h3.value, patient_id := c.patientId,
           patient_name := c.firstName ++ " " ++ c.lastName }],
       st1) := by
  have hb : IsAuthenticated st = false := by simp [IsAuthenticated, hauth]
  unfold Collect collectConnections
  rw [hb, if_neg (by simp), ha]
  dsimp only
  rw [hc]
  dsimp only
  simp only [collectLoop]
  rw [collectGlucose_emits fuel t st1 st1 c g r hg hr]
  dsimp only
  simp [connectionObservations, hh]

/-- Remote account record returned by the C7 witness's login. -/
def authUser : User :=
  { id := "user-1", firstName := "A", lastName := "B", email := "", country := "" }

/-- Session ticket returned by the C7 witness's login. -/
def authTicket1 : AuthTicket := { token := "tok", expires := 1773417313, duration := 15552000 }

/-- The single connection of the C7 witness scenario. -/
def connW : Connection :=
  { id := "c7", patientId := "p7", firstName := "Jane", lastName := "Doe", email := "",
    dateOfBirth := "", emailVerified := false, signUpDate := "",
    glucoseMeasurement := none, glucoseItem := none }

/-- A third historic reading for the C7 witness. -/
def histPoint3 : GlucoseMeasurement :=
  { timestamp := { year := 2025, month := 9, day := 7, hour := 17, minute := 55, second := 0 },
    type := 0, valueInMgPerDl := 98, measurementColor := 1,
    glucoseUnits := GlucoseUnitsMmolPerL, value := 5.45, isHigh := false, isLow := false,
    trendArrow := GlucoseArrowRight, trendMessage := none }

/-- Graph payload of the C7 witness: current reading plus three historics. -/
def graphW : GraphData :=
  { connection := { connW with glucoseMeasurement := some currentReading },
    graphData := [histPoint1, histPoint2, histPoint3] }

/-- Transport of the C7 witness: login succeeds, one connection, full graph. -/
def loginTransport : Transport := fun _ _ _ endpoint _ =>
  if endpoint = "llu/auth/login" then
    HttpResult.resp 200 (some
      { status := 0, data := Payload.authObj authUser authTicket1, ticket := zeroAuthTicket,
        error := none })
  else if endpoint = "llu/connections" then
    HttpResult.resp 200 (some
      { status := 0, data := Payload.connections [connW], ticket := zeroAuthTicket,
        error := none })
  else
    HttpResult.resp 200 (some
      { status := 0, data := Payload.graph graphW, ticket := zeroAuthTicket,
        error := none })

/-- The client state after the C7 witness's successful login. -/
def stAfterLogin : ClientState :=
  { NewLibreLinkClient "u" "p" with creds := some (NewLibreLinkCreds "user-1" authTicket1) }

theorem collect_login_scenario_witness :
    Collect 1 loginTransport (NewLibreLinkClient "u" "p") =
      (GoResult.ok
        [{ desc := MetricDesc.glucoseLevelDesc, timestamp := currentReading.timestamp,
           value := currentReading.value, patient_id := connW.patientId,
           patient_name := connW.firstName ++ " " ++ connW.lastName },
         { desc := MetricDesc.trendDesc, timestamp := currentReading.timestamp,
           value := Float.ofInt currentReading.trendArrow, patient_id := connW.patientId,
           patient_name := connW.firstName ++ " " ++ connW.lastName },
         { desc := MetricDesc.historicDataDesc, timestamp := histPoint1.timestamp,
           value := histPoint1.value, patient_id := connW.patientId,
           patient_name := connW.firstName ++ " " ++ connW.lastName },
         { desc := MetricDesc.historicDataDesc, timestamp := histPoint2.timestamp,
           value := histPoint2.value, patient_id := connW.patientId,
           patient_name := connW.firstName ++ " " ++ connW.lastName },
         { desc := MetricDesc.historicDataDesc, timestamp := histPoint3.timestamp,
           value := histPoint3.value, patient_id := connW.patientId,
           patient_name := connW.firstName ++ " " ++ connW.lastName }],
       stAfterLogin) :=
  collect_login_scenario 1 loginTransport (NewLibreLinkClient "u" "p") stAfterLogin
    connW graphW currentReading histPoint1 histPoint2 histPoint3
    rfl rfl rfl rfl rfl rfl
